import Mathlib

/-!
Shallow embedding of the virtual-things-adapter simulation core
(`virtual-things-adapter.js`): the property store (`VirtualThingsProperty`),
derived-property rules fired from `setValue`, the randomized drift callback,
the action executor (`VirtualThingsDevice.performAction`, including the lock
state machine), and the transcode-process supervisor
(`VirtualThingsAdapter.startTranscode` / `stopTranscode` / `unload`).

JavaScript primitive values are modelled by the inductive `Value`
(numbers as rationals, no NaN), JS truthiness by `truthy`, and strict
equality `===` by decidable equality on `Value`.  Stateful code is modelled
by explicit state passing; `Math.random()` draws are passed in as rational
parameters `u` with `0 ≤ u < 1`; promise rejection / thrown TypeErrors are
modelled by `Except JsError`.
-/

namespace VirtualThings

/-- A JavaScript primitive value as used by the adapter: null, undefined,
boolean, number (modelled as a rational; NaN is not modelled) or string. -/
inductive Value where
  | vNull
  | vUndefined
  | vBool (b : Bool)
  | vNum (q : ℚ)
  | vStr (s : String)
deriving DecidableEq

/-- JS truthiness (`!!value`): null/undefined are falsy, booleans are
themselves, a number is truthy iff nonzero, a string iff nonempty. -/
def truthy : Value → Bool
  | .vNull => false
  | .vUndefined => false
  | .vBool b => b
  | .vNum q => decide (q ≠ 0)
  | .vStr s => decide (s ≠ "")

/-- The property metadata object (`metadata` in the device templates):
`type`, `@type`, optional `enum`, optional `minimum`/`maximum`, `readOnly`.
Absent fields are `none` / `[]` / `false`. -/
structure Descriptor where
  type : Option String := none
  atType : Option String := none
  enum : List Value := []
  minimum : Option ℚ := none
  maximum : Option ℚ := none
  readOnly : Bool := false
deriving DecidableEq

/-- A property object: its name, its descriptor (immutable) and its current
cached value (`this.value`). -/
structure VProperty where
  name : String
  descr : Descriptor
  value : Value
deriving DecidableEq

/-- `VirtualThingsProperty.setCachedValue`: when the declared type is
`boolean` the value is truthy-cast (`this.value = !!value`), otherwise it is
stored as given.  (The follow-on persistence write is fire-and-forget and
never affects the stored value, so it is not part of the state.) -/
def setCachedValue (p : VProperty) (v : Value) : VProperty :=
  if p.descr.type = some "boolean" then
    { p with value := Value.vBool (truthy v) }
  else
    { p with value := v }

/-- The `VirtualThingsProperty` constructor seeds the cached value by
calling `this.setCachedValue(value)` on the freshly built property. -/
def mkProperty (name : String) (descr : Descriptor) (v : Value) : VProperty :=
  setCachedValue { name := name, descr := descr, value := Value.vNull } v

/-- `hasType v ty` holds when `v` is a value of the declared type `ty`
(boolean/number/integer/string/null); an absent or unknown type constrains
nothing. -/
def hasType (v : Value) : Option String → Bool
  | some t =>
    if t = "boolean" then (match v with | .vBool _ => true | _ => false)
    else if t = "number" then (match v with | .vNum _ => true | _ => false)
    else if t = "integer" then
      (match v with | .vNum q => q.den == 1 | _ => false)
    else if t = "string" then (match v with | .vStr _ => true | _ => false)
    else if t = "null" then (match v with | .vNull => true | _ => false)
    else true
  | none => true

/-- The device's property table (`this.properties`, a `Map` keyed by
property name). -/
structure DeviceState where
  props : List VProperty
deriving DecidableEq

/-- `Device.findProperty(name)` / `this.properties.get(name)`: the first
property with the given name, or `none` (JS `undefined`). -/
def findProperty (d : DeviceState) (n : String) : Option VProperty :=
  d.props.find? (fun p => p.name == n)

/-- Mutate the property named `n` in place (JS mutates the property object
held in the device map). -/
def updateProp (d : DeviceState) (n : String) (f : VProperty → VProperty) :
    DeviceState :=
  { props := d.props.map (fun p => if p.name == n then f p else p) }

theorem setCachedValue_name (p : VProperty) (v : Value) :
    (setCachedValue p v).name = p.name := by
  unfold setCachedValue
  split <;> rfl

theorem setCachedValue_descr (p : VProperty) (v : Value) :
    (setCachedValue p v).descr = p.descr := by
  unfold setCachedValue
  split <;> rfl

theorem findProperty_updateProp_self (d : DeviceState) (n : String)
    (f : VProperty → VProperty) (hf : ∀ q, (f q).name = q.name) :
    findProperty (updateProp d n f) n = (findProperty d n).map f := by
  unfold findProperty updateProp
  dsimp only
  induction d.props with
  | nil => rfl
  | cons p ps ih =>
    simp only [List.map_cons]
    by_cases hp : p.name = n
    · rw [if_pos (by simpa using hp)]
      rw [List.find?_cons_of_pos _ (by simp [hf, hp])]
      rw [List.find?_cons_of_pos _ (by simpa using hp)]
      rfl
    · rw [if_neg (by simpa using hp)]
      rw [List.find?_cons_of_neg _ (by simpa using hp)]
      rw [List.find?_cons_of_neg _ (by simpa using hp)]
      exact ih

theorem findProperty_updateProp_other (d : DeviceState) (n m : String)
    (f : VProperty → VProperty) (hf : ∀ q, (f q).name = q.name)
    (hnm : m ≠ n) :
    findProperty (updateProp d n f) m = findProperty d m := by
  unfold findProperty updateProp
  dsimp only
  induction d.props with
  | nil => rfl
  | cons p ps ih =>
    simp only [List.map_cons]
    by_cases hp : p.name = n
    · rw [if_pos (by simpa using hp)]
      rw [List.find?_cons_of_neg _
        (by simp only [hf, hp, beq_iff_eq]; exact fun h => hnm h.symm)]
      rw [List.find?_cons_of_neg _
        (by simp only [hp, beq_iff_eq]; exact fun h => hnm h.symm)]
      exact ih
    · rw [if_neg (by simpa using hp)]
      by_cases hm : p.name = m
      · rw [List.find?_cons_of_pos _ (by simpa using hm)]
        rw [List.find?_cons_of_pos _ (by simpa using hm)]
      · rw [List.find?_cons_of_neg _ (by simpa using hm)]
        rw [List.find?_cons_of_neg _ (by simpa using hm)]
        exact ih

/-! ## Adapter state and the transcode-process supervisor -/

/-- The adapter-level state relevant to the stream supervisor:
`this.unloading`, the module-level `ffmpegMajor`/`ffmpegMinor` probed once
at startup (`null` when the `ffmpeg -version` probe failed), and the
`this.transcodeProcess` handle.  Spawned processes are identified by fresh
pids; `listeners` is the set of pids whose `close`/`error` listeners are
still attached; `spawnCount` counts every `child_process.spawn` performed,
so that "no process is ever started" is expressible. -/
structure AdapterState where
  unloading : Bool
  ffmpegMajor : Option Int
  ffmpegMinor : Option Int
  transcodeProcess : Option Nat
  listeners : List Nat
  nextPid : Nat
  spawnCount : Nat
deriving DecidableEq

/-- `VirtualThingsAdapter.startTranscode`: returns immediately when
unloading, when a process handle already exists, or when the ffmpeg probe
failed (`ffmpegMajor === null`); otherwise spawns one process and attaches
its listeners. -/
def startTranscode (a : AdapterState) : AdapterState :=
  if a.unloading || a.transcodeProcess.isSome then a
  else if a.ffmpegMajor = none then a
  else
    { a with
      transcodeProcess := some a.nextPid
      listeners := a.nextPid :: a.listeners
      nextPid := a.nextPid + 1
      spawnCount := a.spawnCount + 1 }

/-- `VirtualThingsAdapter.stopTranscode`: when a handle exists, first
removes all of the process's listeners (suppressing the restart-on-close
handler), then kills the process, then clears the handle. -/
def stopTranscode (a : AdapterState) : AdapterState :=
  match a.transcodeProcess with
  | none => a
  | some pid =>
    { a with listeners := a.listeners.erase pid, transcodeProcess := none }

/-- Supervisor-level events: an external `startTranscode` request, a
`stopTranscode` request, the adapter's `unload` (which sets the
shutting-down flag and stops the transcode), and the `close` event of a
spawned process firing. -/
inductive TranscodeEvent where
  | start
  | stop
  | unload
  | exitFired (pid : Nat)
deriving DecidableEq

/-- One supervisor step.  A process's `close` event runs the registered
handler (`this.transcodeProcess = null; this.startTranscode()`) only while
its listeners are attached; the handler can fire at most once per process,
so it also detaches the listeners. -/
def stepEvent (a : AdapterState) : TranscodeEvent → AdapterState
  | .start => startTranscode a
  | .stop => stopTranscode a
  | .unload => stopTranscode { a with unloading := true }
  | .exitFired pid =>
    if pid ∈ a.listeners then
      startTranscode
        { a with listeners := a.listeners.erase pid, transcodeProcess := none }
    else a

/-- Run a sequence of supervisor events. -/
def runEvents (a : AdapterState) (evs : List TranscodeEvent) : AdapterState :=
  evs.foldl stepEvent a

/-! ## System state, change notifications, and `setValue` -/

/-- Errors surfaced by property/action code: the explicit
`reject('Read-only property')` of `setValue`, and the JS `TypeError` thrown
by dereferencing an `undefined` property object. -/
inductive JsError where
  | readOnlyRejection
  | typeError
deriving DecidableEq

/-- One device together with the adapter and the ordered log of
`notifyPropertyChanged` calls issued to the gateway. -/
structure SysState where
  dev : DeviceState
  adapter : AdapterState
  notifs : List String
deriving DecidableEq

/-- `this.device.notifyPropertyChanged(property)`: append the property's
name to the notification log. -/
def notifyChanged (s : SysState) (n : String) : SysState :=
  { s with notifs := s.notifs ++ [n] }

/-- Store a value into the property named `n` through its
`setCachedValue` (the in-memory mutation common to every write path). -/
def storeValue (s : SysState) (n : String) (v : Value) : SysState :=
  { s with dev := updateProp s.dev n (fun q => setCachedValue q v) }

/-- Modelled from the spec: `setCachedValueAndNotify` is a gateway-addon
base-class helper whose source is not part of this repository; per §4.1/§5
it stores the value through the property's `setCachedValue` (so the boolean
truthy-cast applies) and then issues the change notification, with the
in-memory update strictly before the notification. -/
def setCachedValueAndNotify (s : SysState) (n : String) (v : Value) :
    SysState :=
  notifyChanged (storeValue s n v) n

/-- The derived-property rules: the `switch (this.name)` block inside
`setValue`, run on the state `s1` in which the written value `w` is already
stored.  `streamActive` toggles the transcode supervisor on the truthiness
of the stored value; `thermostatMode` dereferences
`this.device.properties.get('heatingCooling')` unguardedly inside its
`heat`/`cool`/`off` branches — a missing pair throws a TypeError;
`color`/`colorTemperature` update `colorMode` only when
`this.device.findProperty('colorMode')` found it. -/
def applyRules (s1 : SysState) (n : String) (w : Value) :
    Except JsError SysState :=
  if n = "streamActive" then
    if truthy w then
      Except.ok { s1 with adapter := startTranscode s1.adapter }
    else
      Except.ok { s1 with adapter := stopTranscode s1.adapter }
  else if n = "thermostatMode" then
    let heatingCooling := findProperty s1.dev "heatingCooling"
    if w = Value.vStr "heat" then
      match heatingCooling with
      | none => Except.error JsError.typeError
      | some _ =>
        Except.ok
          (setCachedValueAndNotify s1 "heatingCooling" (Value.vStr "heating"))
    else if w = Value.vStr "cool" then
      match heatingCooling with
      | none => Except.error JsError.typeError
      | some _ =>
        Except.ok
          (setCachedValueAndNotify s1 "heatingCooling" (Value.vStr "cooling"))
    else if w = Value.vStr "off" then
      match heatingCooling with
      | none => Except.error JsError.typeError
      | some _ =>
        Except.ok
          (setCachedValueAndNotify s1 "heatingCooling" (Value.vStr "off"))
    else Except.ok s1
  else if n = "color" then
    match findProperty s1.dev "colorMode" with
    | some _ =>
      Except.ok (setCachedValueAndNotify s1 "colorMode" (Value.vStr "color"))
    | none => Except.ok s1
  else if n = "colorTemperature" then
    match findProperty s1.dev "colorMode" with
    | some _ =>
      Except.ok
        (setCachedValueAndNotify s1 "colorMode" (Value.vStr "temperature"))
    | none => Except.ok s1
  else Except.ok s1

/-- `VirtualThingsProperty.setValue(value)`.  In order: reject when
read-only; otherwise `setCachedValue`, then the derived rules
(`applyRules`; a TypeError thrown there rejects the promise after the
value was already stored); finally `resolve(this.value)` followed by
`notifyPropertyChanged(this)`.  The `none` branch for the written property
itself is unreachable: `setValue` is a method invoked on an existing
property object. -/
def propSetValue (s : SysState) (n : String) (v : Value) :
    Except JsError Value × SysState :=
  match findProperty s.dev n with
  | none => (Except.error JsError.typeError, s)
  | some p =>
    if p.descr.readOnly then (Except.error JsError.readOnlyRejection, s)
    else
      let s1 : SysState := storeValue s n v
      let w : Value := (setCachedValue p v).value
      match applyRules s1 n w with
      | Except.error e => (Except.error e, s1)
      | Except.ok s2 =>
        let rv : Value :=
          ((findProperty s2.dev n).map (fun q => q.value)).getD
            Value.vUndefined
        (Except.ok rv, notifyChanged s2 n)

/-! ## `randomNumber` and the drift callback -/

/-- `randomNumber(integer, min, max)` with the `Math.random()` draw passed
in as `u`.  With both bounds numbers: for integers,
`Math.floor(u * (floor(max) - ceil(min) + 1)) + ceil(min)`; otherwise
`u * (max - min) + min`.  With a bound missing: `Math.floor(u)` for
integers, else `u` itself. -/
def randomNumber (integer : Bool) (min max : Option ℚ) (u : ℚ) : ℚ :=
  match min, max with
  | some mn, some mx =>
    if integer then
      ((Int.floor (u * ((Int.floor mx : ℚ) - (Int.ceil mn : ℚ) + 1)) : ℤ) : ℚ)
        + (Int.ceil mn : ℚ)
    else u * (mx - mn) + mn
  | _, _ => if integer then ((Int.floor u : ℤ) : ℚ) else u

/-- JS array indexing `l[q]` by a number `q`: the element when `q` is a
nonnegative integer in range, otherwise `undefined`. -/
def jsIndex (l : List Value) (q : ℚ) : Value :=
  if 0 ≤ q ∧ q.den = 1 then l.getD q.num.toNat Value.vUndefined
  else Value.vUndefined

/-- One random hex color component:
`randomNumber(true, 0, 255).toString(16).padStart(2, '0')`. -/
def hexComponent (u : ℚ) : String :=
  let n : Nat := (Int.floor (randomNumber true (some 0) (some 255) u)).toNat
  let str : String := String.mk (Nat.toDigits 16 n)
  if str.length < 2 then "0" ++ str else str

/-- The value drawn by one firing of the drift interval callback installed
by the `VirtualThingsProperty` constructor (when
`config.randomizePropertyValues` is set): a random `enum` member when the
descriptor declares a nonempty `enum`, else a draw by declared type
(`Math.random() >= 0.5` for boolean; a 24-bit `#rrggbb` color for string
`ColorProperty` from draws `u1 u2 u3`, otherwise the random hex `tok` from
`crypto.randomBytes`; `randomNumber` within `minimum`/`maximum` for
number/integer).  `none` means the callback returned without drawing
(undeclared/unknown type). -/
def driftValue (descr : Descriptor) (u u1 u2 u3 : ℚ) (tok : String) :
    Option Value :=
  if descr.enum ≠ [] then
    some
      (jsIndex descr.enum
        (randomNumber true (some 0) (some ((descr.enum.length : ℚ) - 1)) u))
  else
    match descr.type with
    | some "boolean" => some (Value.vBool (decide (u ≥ 1 / 2)))
    | some "string" =>
      if descr.atType = some "ColorProperty" then
        some
          (Value.vStr
            ("#" ++ hexComponent u1 ++ hexComponent u2 ++ hexComponent u3))
      else some (Value.vStr tok)
    | some "number" =>
      some (Value.vNum (randomNumber false descr.minimum descr.maximum u))
    | some "integer" =>
      some (Value.vNum (randomNumber true descr.minimum descr.maximum u))
    | _ => none

/-- One drift-interval firing on the property named `n`: draw a value and,
only when it differs from the current value (`value !== this.value`), store
it via `setCachedValue` and notify.  The read-only flag is never
consulted. -/
def driftFire (s : SysState) (n : String) (u u1 u2 u3 : ℚ) (tok : String) :
    SysState :=
  match findProperty s.dev n with
  | none => s
  | some p =>
    match driftValue p.descr u u1 u2 u3 tok with
    | none => s
    | some v =>
      if v ≠ p.value then
        notifyChanged
          { s with dev := updateProp s.dev n (fun q => setCachedValue q v) } n
      else s

/-! ## The action executor -/

/-- The outcome of `VirtualThingsDevice.performAction` up to its immediate
(synchronous) return: the resulting state, the events emitted
(name, payload), whether `action.finish()` has been called, and a pending
delayed transition `(delayMs, targetState)` when the lock scheduled its
`setTimeout`. -/
structure ActionResult where
  sys : SysState
  events : List (String × Value)
  finished : Bool
  pending : Option (Nat × String)
deriving DecidableEq

/-- `VirtualThingsDevice.performAction(action)` with the `Math.random()`
draw for the `basic` event payload passed as `u`.  `trigger`/`silence`
write the `alarm` property via `setCachedValue` and notify (a missing
`alarm` object would throw); `lock`/`unlock` finish immediately when the
`locked` property already equals the target, and otherwise set it to
`unknown` via `setCachedValueAndNotify` and schedule a 2000 ms delayed
resolution; any other action name just finishes. -/
def performAction (s : SysState) (name : String) (u : ℚ) :
    Except JsError ActionResult :=
  match name with
  | "basic" =>
    Except.ok
      { sys := s
        events :=
          [("virtualEvent", Value.vNum ((Int.floor (u * 100) : ℤ) : ℚ))]
        finished := true
        pending := none }
  | "trigger" =>
    match findProperty s.dev "alarm" with
    | none => Except.error JsError.typeError
    | some _ =>
      let s1 : SysState := storeValue s "alarm" (Value.vBool true)
      Except.ok
        { sys := notifyChanged s1 "alarm"
          events := [("alarmEvent", Value.vStr "Something happened!")]
          finished := true
          pending := none }
  | "silence" =>
    match findProperty s.dev "alarm" with
    | none => Except.error JsError.typeError
    | some _ =>
      let s1 : SysState := storeValue s "alarm" (Value.vBool false)
      Except.ok
        { sys := notifyChanged s1 "alarm"
          events := []
          finished := true
          pending := none }
  | "lock" | "unlock" =>
    let targetState : String := if name = "lock" then "locked" else "unlocked"
    match findProperty s.dev "locked" with
    | none => Except.error JsError.typeError
    | some p =>
      if p.value = Value.vStr targetState then
        Except.ok { sys := s, events := [], finished := true, pending := none }
      else
        Except.ok
          { sys := setCachedValueAndNotify s "locked" (Value.vStr "unknown")
            events := []
            finished := false
            pending := some (2000, targetState) }
  | _ =>
    Except.ok { sys := s, events := [], finished := true, pending := none }

/-- The lock's delayed `setTimeout` callback: draw
`randomNumber(true, 0, 19)`; on the sentinel `2` set `locked` to `jammed`,
otherwise to the requested target, via `setCachedValueAndNotify`, then a
second `notifyPropertyChanged`, then `action.finish()` (the returned
`Bool`). -/
def lockResolve (s : SysState) (targetState : String) (u : ℚ) :
    SysState × Bool :=
  let v : Value :=
    if randomNumber true (some 0) (some 19) u = 2 then Value.vStr "jammed"
    else Value.vStr targetState
  (notifyChanged (setCachedValueAndNotify s "locked" v) "locked", true)

/-! ## Decidability helper and sample states -/

instance {ε α : Type} [DecidableEq ε] [DecidableEq α] :
    DecidableEq (Except ε α) := fun x y =>
  match x, y with
  | .ok a, .ok b =>
    if h : a = b then isTrue (by rw [h])
    else isFalse (fun hc => h (Except.ok.inj hc))
  | .error a, .error b =>
    if h : a = b then isTrue (by rw [h])
    else isFalse (fun hc => h (Except.error.inj hc))
  | .ok _, .error _ => isFalse (fun hc => Except.noConfusion hc)
  | .error _, .ok _ => isFalse (fun hc => Except.noConfusion hc)

/-- An adapter state after a successful ffmpeg 4.1 probe, idle. -/
def sampleAdapter : AdapterState := ⟨false, some 4, some 1, none, [], 0, 0⟩

/-- `alarm` property descriptor from the Virtual Alarm template
(boolean, `readOnly: true`). -/
def alarmDescr : Descriptor :=
  ⟨some "boolean", some "AlarmProperty", [], none, none, true⟩

/-- A Virtual Alarm system state (alarm not ringing). -/
def alarmSys : SysState :=
  ⟨⟨[⟨"alarm", alarmDescr, Value.vBool false⟩]⟩, sampleAdapter, []⟩

/-- `locked` property descriptor from the Virtual Lock template. -/
def lockedDescr : Descriptor :=
  ⟨some "string", some "LockedProperty",
    [Value.vStr "locked", Value.vStr "unlocked", Value.vStr "jammed",
      Value.vStr "unknown"], none, none, true⟩

/-- A Virtual Lock system state, currently unlocked. -/
def lockSys : SysState :=
  ⟨⟨[⟨"locked", lockedDescr, Value.vStr "unlocked"⟩]⟩, sampleAdapter, []⟩

/-- `thermostatMode` descriptor from the Virtual Thermostat template. -/
def thermostatModeDescr : Descriptor :=
  ⟨some "string", some "ThermostatModeProperty",
    [Value.vStr "off", Value.vStr "heat", Value.vStr "cool",
      Value.vStr "auto"], none, none, false⟩

/-- `heatingCooling` descriptor from the Virtual Thermostat template. -/
def heatingCoolingDescr : Descriptor :=
  ⟨some "string", some "HeatingCoolingProperty",
    [Value.vStr "off", Value.vStr "heating", Value.vStr "cooling"],
    none, none, true⟩

/-- A Virtual Thermostat system state (mode `off`, state `off`). -/
def thermostatSys : SysState :=
  ⟨⟨[⟨"thermostatMode", thermostatModeDescr, Value.vStr "off"⟩,
      ⟨"heatingCooling", heatingCoolingDescr, Value.vStr "off"⟩]⟩,
    sampleAdapter, []⟩

/-- A custom device (constructible through the `customThings` config)
exposing a writable string property named `thermostatMode` but no
`heatingCooling` property. -/
def orphanModeSys : SysState :=
  ⟨⟨[⟨"thermostatMode", ⟨some "string", none, [], none, none, false⟩,
      Value.vStr "auto"⟩]⟩, sampleAdapter, []⟩

/-! ## Claim C2: read-only writes are rejected without any state change -/

/-- Claim C2: for every property whose descriptor is read-only, `setValue`
rejects with the read-only violation and returns with the whole system
state unchanged — no stored-value change and no change notification. -/
theorem c2_readonly_setValue_rejected (s : SysState) (n : String) (v : Value)
    (p : VProperty) (hp : findProperty s.dev n = some p)
    (hro : p.descr.readOnly = true) :
    propSetValue s n v = (Except.error JsError.readOnlyRejection, s) := by
  unfold propSetValue
  rw [hp]
  simp [hro]

theorem c2_readonly_setValue_rejected_witness :
    propSetValue alarmSys "alarm" (Value.vBool true) =
      (Except.error JsError.readOnlyRejection, alarmSys) :=
  c2_readonly_setValue_rejected alarmSys "alarm" (Value.vBool true)
    ⟨"alarm", alarmDescr, Value.vBool false⟩ rfl rfl

/-! ## Claim C7: start() is a no-op when running/unavailable/unloading -/

/-- Claim C7: `startTranscode` spawns nothing and changes no state whenever
a transcode handle already exists, the ffmpeg version probe failed, or the
adapter is unloading; consequently calling it twice from an idle, capable,
non-unloading state spawns exactly one process. -/
theorem c7_startTranscode_noop_guards (a : AdapterState) :
    (a.unloading = true ∨ a.transcodeProcess.isSome = true ∨
        a.ffmpegMajor = none →
      startTranscode a = a) ∧
    (a.unloading = false → a.transcodeProcess = none →
      a.ffmpegMajor ≠ none →
      (startTranscode (startTranscode a)).spawnCount = a.spawnCount + 1 ∧
      (startTranscode (startTranscode a)).transcodeProcess =
        some a.nextPid) := by
  constructor
  · intro h
    unfold startTranscode
    rcases h with h | h | h
    · simp [h]
    · simp [h]
    · by_cases hu : a.unloading = true
      · simp [hu]
      · by_cases ht : a.transcodeProcess.isSome = true
        · simp [ht]
        · simp [hu, ht, h]
  · intro h1 h2 h3
    constructor
    · unfold startTranscode
      simp [h1, h2, h3]
    · unfold startTranscode
      simp [h1, h2, h3]

theorem c7_startTranscode_noop_guards_witness :
    (startTranscode (startTranscode sampleAdapter)).spawnCount =
        sampleAdapter.spawnCount + 1 ∧
      (startTranscode (startTranscode sampleAdapter)).transcodeProcess =
        some sampleAdapter.nextPid :=
  (c7_startTranscode_noop_guards sampleAdapter).2 rfl rfl (by decide)

/-! ## Claim C8: stop() suppresses restarts; nothing starts after unload -/

theorem stepEvent_preserves_unloading_spawnCount (a : AdapterState)
    (h : a.unloading = true) (e : TranscodeEvent) :
    (stepEvent a e).spawnCount = a.spawnCount ∧
      (stepEvent a e).unloading = true := by
  cases e with
  | start =>
    show (startTranscode a).spawnCount = _ ∧ (startTranscode a).unloading = _
    unfold startTranscode
    simp [h]
  | stop =>
    show (stopTranscode a).spawnCount = _ ∧ (stopTranscode a).unloading = _
    unfold stopTranscode
    cases a.transcodeProcess <;> simp [h]
  | unload =>
    show (stopTranscode _).spawnCount = _ ∧ (stopTranscode _).unloading = _
    unfold stopTranscode
    cases htp : a.transcodeProcess <;> simp [htp, h]
  | exitFired pid =>
    simp only [stepEvent]
    by_cases hm : pid ∈ a.listeners
    · rw [if_pos hm]
      unfold startTranscode
      simp [h]
    · rw [if_neg hm]
      exact ⟨rfl, h⟩

theorem runEvents_preserves_unloading_spawnCount (a : AdapterState)
    (h : a.unloading = true) (evs : List TranscodeEvent) :
    (runEvents a evs).spawnCount = a.spawnCount := by
  induction evs generalizing a with
  | nil => rfl
  | cons e evs ih =>
    have hs := stepEvent_preserves_unloading_spawnCount a h e
    show (runEvents (stepEvent a e) evs).spawnCount = a.spawnCount
    rw [ih (stepEvent a e) hs.2, hs.1]

/-- Claim C8: `stopTranscode` detaches the former process's listeners and
clears the handle, so the former process's `close` event never triggers a
restart afterwards; and once `unload` has set the shutting-down flag and
stopped the transcode, no sequence of later supervisor events ever spawns
a transcode process again. -/
theorem c8_stop_suppresses_restart (a : AdapterState) :
    (∀ pid, a.transcodeProcess = some pid → a.listeners.Nodup →
      (stopTranscode a).transcodeProcess = none ∧
        pid ∉ (stopTranscode a).listeners ∧
        stepEvent (stopTranscode a) (TranscodeEvent.exitFired pid) =
          stopTranscode a) ∧
    (∀ evs,
      (runEvents (stepEvent a TranscodeEvent.unload) evs).spawnCount =
        a.spawnCount) := by
  constructor
  · intro pid hpid hnd
    have hstop : stopTranscode a =
        { a with listeners := a.listeners.erase pid,
                 transcodeProcess := none } := by
      unfold stopTranscode
      rw [hpid]
    have hmem : pid ∉ (stopTranscode a).listeners := by
      rw [hstop]
      exact hnd.not_mem_erase
    refine ⟨by rw [hstop], hmem, ?_⟩
    show (if pid ∈ (stopTranscode a).listeners then _ else _) = _
    rw [if_neg hmem]
  · intro evs
    have hu : (stepEvent a TranscodeEvent.unload).unloading = true := by
      show (stopTranscode { a with unloading := true }).unloading = true
      unfold stopTranscode
      cases htp : ({ a with unloading := true } :
          AdapterState).transcodeProcess <;> simp
    have hc : (stepEvent a TranscodeEvent.unload).spawnCount =
        a.spawnCount := by
      show (stopTranscode { a with unloading := true }).spawnCount = _
      unfold stopTranscode
      cases htp : ({ a with unloading := true } :
          AdapterState).transcodeProcess <;> simp
    rw [runEvents_preserves_unloading_spawnCount _ hu evs, hc]

theorem c8_stop_suppresses_restart_witness :
    ((stopTranscode ⟨false, some 4, some 1, some 5, [5], 6, 1⟩ :
        AdapterState).transcodeProcess = none ∧
      5 ∉ (stopTranscode ⟨false, some 4, some 1, some 5, [5], 6, 1⟩ :
        AdapterState).listeners ∧
      stepEvent (stopTranscode ⟨false, some 4, some 1, some 5, [5], 6, 1⟩)
          (TranscodeEvent.exitFired 5) =
        stopTranscode ⟨false, some 4, some 1, some 5, [5], 6, 1⟩) ∧
    (runEvents
        (stepEvent ⟨false, some 4, some 1, some 5, [5], 6, 1⟩
          TranscodeEvent.unload)
        [TranscodeEvent.start, TranscodeEvent.exitFired 5,
          TranscodeEvent.start]).spawnCount = 1 :=
  ⟨(c8_stop_suppresses_restart ⟨false, some 4, some 1, some 5, [5], 6, 1⟩).1
      5 rfl (by decide),
    (c8_stop_suppresses_restart ⟨false, some 4, some 1, some 5, [5], 6, 1⟩).2
      [TranscodeEvent.start, TranscodeEvent.exitFired 5,
        TranscodeEvent.start]⟩

/-! ## Claim C9: boolean-typed properties always hold genuine booleans -/

/-- A property whose declared type is `boolean` holds a genuine boolean
value. -/
def boolTyped (p : VProperty) : Prop :=
  p.descr.type = some "boolean" → ∃ b, p.value = Value.vBool b

/-- Every boolean-typed property of the device holds a genuine boolean. -/
def devBoolInv (d : DeviceState) : Prop :=
  ∀ p ∈ d.props, boolTyped p

theorem boolTyped_setCachedValue (p : VProperty) (v : Value) :
    boolTyped (setCachedValue p v) := by
  intro ht
  rw [setCachedValue_descr] at ht
  unfold setCachedValue
  rw [if_pos ht]
  exact ⟨truthy v, rfl⟩

theorem devBoolInv_updateProp (d : DeviceState) (n : String) (v : Value)
    (h : devBoolInv d) :
    devBoolInv (updateProp d n (fun q => setCachedValue q v)) := by
  intro p hp
  unfold updateProp at hp
  simp only [List.mem_map] at hp
  obtain ⟨q, hq, hqe⟩ := hp
  subst hqe
  split
  · exact boolTyped_setCachedValue q v
  · exact h q hq

theorem devBoolInv_setCachedValueAndNotify (s : SysState) (n : String)
    (v : Value) (h : devBoolInv s.dev) :
    devBoolInv (setCachedValueAndNotify s n v).dev :=
  devBoolInv_updateProp s.dev n v h

theorem devBoolInv_applyRules (s : SysState) (n : String) (w : Value)
    (h : devBoolInv s.dev) (s2 : SysState)
    (heq : applyRules s n w = Except.ok s2) :
    devBoolInv s2.dev := by
  unfold applyRules at heq
  dsimp only at heq
  repeat' split at heq
  all_goals
    first
      | (injection heq with he
         subst he
         first
           | exact h
           | exact devBoolInv_setCachedValueAndNotify _ _ _ h)
      | exact Except.noConfusion heq

/-- Claim C9: every stored update goes through `setCachedValue`, which
truthy-casts when the declared type is `boolean`; so boolean-typed
properties hold genuine booleans after construction seeding, external
`setValue`, drift firings and action-driven writes, and e.g. storing the
number `1` yields `true`, the empty string `false`. -/
theorem c9_boolean_coercion_invariant :
    (∀ (name : String) (descr : Descriptor) (v : Value),
      boolTyped (mkProperty name descr v)) ∧
    (∀ (p : VProperty) (v : Value), boolTyped (setCachedValue p v)) ∧
    (∀ p : VProperty, p.descr.type = some "boolean" →
      (setCachedValue p (Value.vNum 1)).value = Value.vBool true ∧
        (setCachedValue p (Value.vStr "")).value = Value.vBool false) ∧
    (∀ (s : SysState) (n : String) (v : Value), devBoolInv s.dev →
      devBoolInv (propSetValue s n v).2.dev) ∧
    (∀ (s : SysState) (n : String) (u u1 u2 u3 : ℚ) (tok : String),
      devBoolInv s.dev → devBoolInv (driftFire s n u u1 u2 u3 tok).dev) ∧
    (∀ (s : SysState) (name : String) (u : ℚ) (r : ActionResult),
      devBoolInv s.dev → performAction s name u = Except.ok r →
      devBoolInv r.sys.dev) ∧
    (∀ (s : SysState) (target : String) (u : ℚ), devBoolInv s.dev →
      devBoolInv (lockResolve s target u).1.dev) := by
  refine ⟨?_, ?_, ?_, ?_, ?_, ?_, ?_⟩
  · intro name descr v
    exact boolTyped_setCachedValue _ v
  · intro p v
    exact boolTyped_setCachedValue p v
  · intro p hb
    constructor
    · unfold setCachedValue
      rw [if_pos hb]
      rfl
    · unfold setCachedValue
      rw [if_pos hb]
      rfl
  · intro s n v h
    unfold propSetValue
    cases hf : findProperty s.dev n with
    | none => exact h
    | some p =>
      dsimp only
      by_cases hro : p.descr.readOnly = true
      · rw [if_pos hro]
        exact h
      · rw [if_neg hro]
        cases har : applyRules (storeValue s n v) n
            (setCachedValue p v).value with
        | error e =>
          exact devBoolInv_updateProp s.dev n v h
        | ok s2 =>
          exact devBoolInv_applyRules _ n _
            (devBoolInv_updateProp s.dev n v h) s2 har
  · intro s n u u1 u2 u3 tok h
    unfold driftFire
    cases hf : findProperty s.dev n with
    | none => exact h
    | some p =>
      dsimp only
      cases hd : driftValue p.descr u u1 u2 u3 tok with
      | none => exact h
      | some v =>
        dsimp only
        split
        · exact devBoolInv_updateProp s.dev n v h
        · exact h
  · intro s name u r h heq
    unfold performAction at heq
    dsimp only at heq
    repeat' split at heq
    all_goals
      first
        | (injection heq with he
           subst he
           first
             | exact h
             | exact devBoolInv_updateProp s.dev _ _ h)
        | exact Except.noConfusion heq
  · intro s target u h
    unfold lockResolve
    exact devBoolInv_setCachedValueAndNotify _ _ _ h

theorem c9_boolean_coercion_invariant_witness :
    (setCachedValue ⟨"alarm", alarmDescr, Value.vBool false⟩
        (Value.vNum 1)).value = Value.vBool true ∧
      (setCachedValue ⟨"alarm", alarmDescr, Value.vBool false⟩
        (Value.vStr "")).value = Value.vBool false :=
  c9_boolean_coercion_invariant.2.2.1
    ⟨"alarm", alarmDescr, Value.vBool false⟩ rfl

/-! ## Characterization of the derived-property rules -/

theorem storeValue_notifs (s : SysState) (n : String) (v : Value) :
    (storeValue s n v).notifs = s.notifs := rfl

theorem notifyChanged_dev (s : SysState) (n : String) :
    (notifyChanged s n).dev = s.dev := rfl

theorem notifyChanged_notifs (s : SysState) (n : String) :
    (notifyChanged s n).notifs = s.notifs ++ [n] := rfl

theorem setCachedValueAndNotify_dev (s : SysState) (n : String) (v : Value) :
    (setCachedValueAndNotify s n v).dev = (storeValue s n v).dev := rfl

theorem storeValue_adapter (s : SysState) (n : String) (v : Value) :
    (storeValue s n v).adapter = s.adapter := rfl

theorem findProperty_storeValue_self (s : SysState) (n : String) (v : Value) :
    findProperty (storeValue s n v).dev n =
      (findProperty s.dev n).map (fun q => setCachedValue q v) :=
  findProperty_updateProp_self s.dev n _ (fun q => setCachedValue_name q v)

theorem findProperty_storeValue_other (s : SysState) (n m : String)
    (v : Value) (hnm : m ≠ n) :
    findProperty (storeValue s n v).dev m = findProperty s.dev m :=
  findProperty_updateProp_other s.dev n m _
    (fun q => setCachedValue_name q v) hnm

theorem applyRules_other_name (s : SysState) (n : String) (w : Value)
    (h1 : n ≠ "streamActive") (h2 : n ≠ "thermostatMode")
    (h3 : n ≠ "color") (h4 : n ≠ "colorTemperature") :
    applyRules s n w = Except.ok s := by
  unfold applyRules
  rw [if_neg h1, if_neg h2, if_neg h3, if_neg h4]

theorem applyRules_streamActive (s : SysState) (w : Value) :
    applyRules s "streamActive" w =
      Except.ok
        { s with
          adapter :=
            if truthy w then startTranscode s.adapter
            else stopTranscode s.adapter } := by
  unfold applyRules
  rw [if_pos rfl]
  by_cases ht : truthy w = true
  · rw [if_pos ht, if_pos ht]
  · rw [if_neg ht, if_neg ht]

theorem applyRules_thermostatMode_pair (s : SysState) (q : VProperty)
    (hq : findProperty s.dev "heatingCooling" = some q)
    (mode paired : String)
    (hmp : (mode = "heat" ∧ paired = "heating") ∨
      (mode = "cool" ∧ paired = "cooling") ∨
      (mode = "off" ∧ paired = "off")) :
    applyRules s "thermostatMode" (Value.vStr mode) =
      Except.ok
        (setCachedValueAndNotify s "heatingCooling" (Value.vStr paired)) := by
  rcases hmp with ⟨hm, hpr⟩ | ⟨hm, hpr⟩ | ⟨hm, hpr⟩ <;> subst hm <;> subst hpr <;>
    simp [applyRules, hq]

theorem applyRules_thermostatMode_missing (s : SysState)
    (hq : findProperty s.dev "heatingCooling" = none) (mode : String)
    (hm : mode = "heat" ∨ mode = "cool" ∨ mode = "off") :
    applyRules s "thermostatMode" (Value.vStr mode) =
      Except.error JsError.typeError := by
  rcases hm with hm | hm | hm <;> subst hm <;> simp [applyRules, hq]

theorem applyRules_thermostatMode_other (s : SysState) (w : Value)
    (h1 : w ≠ Value.vStr "heat") (h2 : w ≠ Value.vStr "cool")
    (h3 : w ≠ Value.vStr "off") :
    applyRules s "thermostatMode" w = Except.ok s := by
  simp [applyRules, h1, h2, h3]

theorem applyRules_color_present (s : SysState) (q : VProperty) (w : Value)
    (hq : findProperty s.dev "colorMode" = some q) :
    applyRules s "color" w =
      Except.ok (setCachedValueAndNotify s "colorMode" (Value.vStr "color")) := by
  simp [applyRules, hq]

theorem applyRules_color_missing (s : SysState) (w : Value)
    (hq : findProperty s.dev "colorMode" = none) :
    applyRules s "color" w = Except.ok s := by
  simp [applyRules, hq]

theorem applyRules_colorTemperature_present (s : SysState) (q : VProperty)
    (w : Value) (hq : findProperty s.dev "colorMode" = some q) :
    applyRules s "colorTemperature" w =
      Except.ok
        (setCachedValueAndNotify s "colorMode" (Value.vStr "temperature")) := by
  simp [applyRules, hq]

theorem applyRules_colorTemperature_missing (s : SysState) (w : Value)
    (hq : findProperty s.dev "colorMode" = none) :
    applyRules s "colorTemperature" w = Except.ok s := by
  simp [applyRules, hq]

theorem applyRules_ok_frame (s : SysState) (n : String) (w : Value)
    (s2 : SysState) (heq : applyRules s n w = Except.ok s2) (m : String)
    (hm1 : m ≠ "heatingCooling") (hm2 : m ≠ "colorMode") :
    findProperty s2.dev m = findProperty s.dev m := by
  unfold applyRules at heq
  dsimp only at heq
  repeat' split at heq
  all_goals
    first
      | (injection heq with he
         subst he
         first
           | rfl
           | exact findProperty_storeValue_other s _ m _ hm1
           | exact findProperty_storeValue_other s _ m _ hm2)
      | exact Except.noConfusion heq

theorem applyRules_ok_notifs (s : SysState) (n : String) (w : Value)
    (s2 : SysState) (heq : applyRules s n w = Except.ok s2) :
    s2.notifs = s.notifs ∨
      (s2.notifs = s.notifs ++ ["heatingCooling"] ∧ n = "thermostatMode") ∨
      (s2.notifs = s.notifs ++ ["colorMode"] ∧
        (n = "color" ∨ n = "colorTemperature")) := by
  unfold applyRules at heq
  dsimp only at heq
  repeat' split at heq
  all_goals
    first
      | (injection heq with he
         subst he
         first
           | exact Or.inl rfl
           | exact Or.inr (Or.inl ⟨rfl, by assumption⟩)
           | exact Or.inr (Or.inr ⟨rfl, Or.inl (by assumption)⟩)
           | exact Or.inr (Or.inr ⟨rfl, Or.inr (by assumption)⟩))
      | exact Except.noConfusion heq

theorem applyRules_ok_find_self (s : SysState) (n : String) (w : Value)
    (s2 : SysState) (heq : applyRules s n w = Except.ok s2) :
    findProperty s2.dev n = findProperty s.dev n := by
  by_cases h1 : n = "heatingCooling"
  · subst h1
    rw [applyRules_other_name s _ w (by decide) (by decide) (by decide)
      (by decide)] at heq
    injection heq with he
    subst he
    rfl
  · by_cases h2 : n = "colorMode"
    · subst h2
      rw [applyRules_other_name s _ w (by decide) (by decide) (by decide)
        (by decide)] at heq
      injection heq with he
      subst he
      rfl
    · exact applyRules_ok_frame s n w s2 heq n h1 h2

/-- `setValue` on an existing, non-read-only property, unfolded one step:
store, run the rules, then resolve-and-notify or propagate the thrown
error with the store already applied. -/
theorem propSetValue_eq_of_writable (s : SysState) (n : String) (v : Value)
    (p : VProperty) (hp : findProperty s.dev n = some p)
    (hro : p.descr.readOnly = false) :
    propSetValue s n v =
      (match applyRules (storeValue s n v) n (setCachedValue p v).value with
       | Except.error e => (Except.error e, storeValue s n v)
       | Except.ok s2 =>
         (Except.ok
            (((findProperty s2.dev n).map (fun q => q.value)).getD
              Value.vUndefined),
          notifyChanged s2 n)) := by
  unfold propSetValue
  rw [hp]
  dsimp only
  rw [if_neg (by rw [hro]; exact Bool.false_ne_true)]

theorem setCachedValue_value_not_boolean (p : VProperty) (v : Value)
    (h : p.descr.type ≠ some "boolean") : (setCachedValue p v).value = v := by
  unfold setCachedValue
  rw [if_neg h]

theorem setCachedValue_value_of_hasType (p : VProperty) (v : Value)
    (h : hasType v p.descr.type = true) : (setCachedValue p v).value = v := by
  by_cases hb : p.descr.type = some "boolean"
  · rw [hb] at h
    unfold setCachedValue
    rw [if_pos hb]
    cases v <;> simp [hasType, truthy] at h ⊢
  · exact setCachedValue_value_not_boolean p v hb

/-! ## Claim C10: the read-only flag guards only the external setValue -/

/-- Claim C10: internal writers bypass the read-only guard — a drift firing
replaces a read-only property's value; `trigger`/`silence` write the
read-only `alarm` property directly; `lock`/`unlock` write the read-only
`locked` property; none raises a read-only error. -/
theorem c10_readonly_bypassed_internally :
    (∀ (s : SysState) (n : String) (p : VProperty) (v : Value)
        (u u1 u2 u3 : ℚ) (tok : String),
      findProperty s.dev n = some p → p.descr.readOnly = true →
      driftValue p.descr u u1 u2 u3 tok = some v → v ≠ p.value →
      findProperty (driftFire s n u u1 u2 u3 tok).dev n =
        some (setCachedValue p v)) ∧
    (∀ (s : SysState) (p : VProperty) (u : ℚ),
      findProperty s.dev "alarm" = some p → p.descr.readOnly = true →
      performAction s "trigger" u =
        Except.ok
          ⟨notifyChanged (storeValue s "alarm" (Value.vBool true)) "alarm",
            [("alarmEvent", Value.vStr "Something happened!")], true, none⟩ ∧
      (findProperty (storeValue s "alarm" (Value.vBool true)).dev
          "alarm").map (fun q => q.value) = some (Value.vBool true)) ∧
    (∀ (s : SysState) (p : VProperty) (u : ℚ),
      findProperty s.dev "alarm" = some p → p.descr.readOnly = true →
      performAction s "silence" u =
        Except.ok
          ⟨notifyChanged (storeValue s "alarm" (Value.vBool false)) "alarm",
            [], true, none⟩) ∧
    (∀ (s : SysState) (p : VProperty) (u : ℚ),
      findProperty s.dev "locked" = some p → p.descr.readOnly = true →
      p.descr.type ≠ some "boolean" → p.value ≠ Value.vStr "locked" →
      performAction s "lock" u =
        Except.ok
          ⟨setCachedValueAndNotify s "locked" (Value.vStr "unknown"),
            [], false, some (2000, "locked")⟩ ∧
      (findProperty
          (setCachedValueAndNotify s "locked" (Value.vStr "unknown")).dev
          "locked").map (fun q => q.value) = some (Value.vStr "unknown")) := by
  refine ⟨?_, ?_, ?_, ?_⟩
  · intro s n p v u u1 u2 u3 tok hf hro hd hne
    unfold driftFire
    rw [hf]
    dsimp only
    rw [hd]
    dsimp only
    rw [if_pos hne]
    show findProperty (storeValue s n v).dev n = _
    rw [findProperty_storeValue_self, hf]
    rfl
  · intro s p u hf hro
    have hstep : performAction s "trigger" u =
        (match findProperty s.dev "alarm" with
         | none => Except.error JsError.typeError
         | some _ =>
           Except.ok
             ⟨notifyChanged (storeValue s "alarm" (Value.vBool true)) "alarm",
               [("alarmEvent", Value.vStr "Something happened!")], true,
               none⟩) := rfl
    refine ⟨by rw [hstep, hf], ?_⟩
    rw [findProperty_storeValue_self, hf]
    show some (setCachedValue p (Value.vBool true)).value = _
    unfold setCachedValue
    split <;> rfl
  · intro s p u hf hro
    have hstep : performAction s "silence" u =
        (match findProperty s.dev "alarm" with
         | none => Except.error JsError.typeError
         | some _ =>
           Except.ok
             ⟨notifyChanged (storeValue s "alarm" (Value.vBool false))
                 "alarm", [], true, none⟩) := rfl
    rw [hstep, hf]
  · intro s p u hf hro htype hval
    have hstep : performAction s "lock" u =
        (match findProperty s.dev "locked" with
         | none => Except.error JsError.typeError
         | some q =>
           if q.value = Value.vStr "locked" then
             Except.ok ⟨s, [], true, none⟩
           else
             Except.ok
               ⟨setCachedValueAndNotify s "locked" (Value.vStr "unknown"),
                 [], false, some (2000, "locked")⟩) := rfl
    refine ⟨by rw [hstep, hf]; dsimp only; rw [if_neg hval], ?_⟩
    show (findProperty (storeValue s "locked" (Value.vStr "unknown")).dev
        "locked").map (fun q => q.value) = _
    rw [findProperty_storeValue_self, hf]
    show some (setCachedValue p (Value.vStr "unknown")).value = _
    rw [setCachedValue_value_not_boolean p _ htype]

theorem c10_readonly_bypassed_internally_witness :
    (findProperty
        (driftFire alarmSys "alarm" (1 / 2) 0 0 0 "t").dev "alarm" =
      some
        (setCachedValue ⟨"alarm", alarmDescr, Value.vBool false⟩
          (Value.vBool true))) ∧
    (performAction lockSys "lock" 0 =
        Except.ok
          ⟨setCachedValueAndNotify lockSys "locked" (Value.vStr "unknown"),
            [], false, some (2000, "locked")⟩ ∧
      (findProperty
          (setCachedValueAndNotify lockSys "locked"
            (Value.vStr "unknown")).dev "locked").map (fun q => q.value) =
        some (Value.vStr "unknown")) :=
  ⟨c10_readonly_bypassed_internally.1 alarmSys "alarm"
      ⟨"alarm", alarmDescr, Value.vBool false⟩ (Value.vBool true)
      (1 / 2) 0 0 0 "t" rfl rfl (by norm_num [driftValue, alarmDescr])
      (by decide),
    c10_readonly_bypassed_internally.2.2.2 lockSys
      ⟨"locked", lockedDescr, Value.vStr "unlocked"⟩ 0 rfl rfl (by decide)
      (by decide)⟩

/-! ## Claim C4: thermostatMode couples the heatingCooling property -/

theorem thermostat_write_mode (s : SysState) (p hc : VProperty)
    (hp : findProperty s.dev "thermostatMode" = some p)
    (hro : p.descr.readOnly = false) (hpt : p.descr.type ≠ some "boolean")
    (hhc : findProperty s.dev "heatingCooling" = some hc)
    (hhct : hc.descr.type ≠ some "boolean") (mode paired : String)
    (hmp : (mode = "heat" ∧ paired = "heating") ∨
      (mode = "cool" ∧ paired = "cooling") ∨
      (mode = "off" ∧ paired = "off")) :
    (findProperty (propSetValue s "thermostatMode" (Value.vStr mode)).2.dev
        "heatingCooling").map (fun q => q.value) =
      some (Value.vStr paired) ∧
    findProperty (propSetValue s "thermostatMode" (Value.vStr mode)).2.dev
        "thermostatMode" = some (setCachedValue p (Value.vStr mode)) ∧
    findProperty (propSetValue s "thermostatMode" (Value.vStr mode)).2.dev
        "heatingCooling" =
      some (setCachedValue hc (Value.vStr paired)) ∧
    (propSetValue s "thermostatMode" (Value.vStr mode)).1 =
      Except.ok (Value.vStr mode) := by
  have hw : (setCachedValue p (Value.vStr mode)).value = Value.vStr mode :=
    setCachedValue_value_not_boolean p _ hpt
  have hhc1 : findProperty
      (storeValue s "thermostatMode" (Value.vStr mode)).dev "heatingCooling" =
      some hc := by
    rw [findProperty_storeValue_other s _ _ _ (by decide), hhc]
  have har := applyRules_thermostatMode_pair
    (storeValue s "thermostatMode" (Value.vStr mode)) hc hhc1 mode paired hmp
  have heq := propSetValue_eq_of_writable s "thermostatMode"
    (Value.vStr mode) p hp hro
  rw [hw, har] at heq
  have hfind_tm : findProperty
      (setCachedValueAndNotify
        (storeValue s "thermostatMode" (Value.vStr mode)) "heatingCooling"
        (Value.vStr paired)).dev "thermostatMode" =
      some (setCachedValue p (Value.vStr mode)) := by
    show findProperty
      (storeValue (storeValue s "thermostatMode" (Value.vStr mode))
        "heatingCooling" (Value.vStr paired)).dev "thermostatMode" = _
    rw [findProperty_storeValue_other _ _ _ _ (by decide),
      findProperty_storeValue_self, hp]
    rfl
  have hfind_hc : findProperty
      (setCachedValueAndNotify
        (storeValue s "thermostatMode" (Value.vStr mode)) "heatingCooling"
        (Value.vStr paired)).dev "heatingCooling" =
      some (setCachedValue hc (Value.vStr paired)) := by
    show findProperty
      (storeValue (storeValue s "thermostatMode" (Value.vStr mode))
        "heatingCooling" (Value.vStr paired)).dev "heatingCooling" = _
    rw [findProperty_storeValue_self, hhc1]
    rfl
  rw [heq]
  dsimp only
  refine ⟨?_, hfind_tm, hfind_hc, ?_⟩
  · rw [notifyChanged_dev, hfind_hc, Option.map_some',
      setCachedValue_value_not_boolean hc _ hhct]
  · rw [hfind_tm, Option.map_some', Option.getD_some, hw]

/-- Claim C4: writing `heat`/`cool`/`off` to a `thermostatMode` property
sets the paired `heatingCooling` property to `heating`/`cooling`/`off`
respectively; any other written value leaves the pair untouched; and
writing the same mode twice leaves the pair's value stable. -/
theorem c4_thermostat_mode_couples_pair (s : SysState) (p hc : VProperty)
    (hp : findProperty s.dev "thermostatMode" = some p)
    (hro : p.descr.readOnly = false) (hpt : p.descr.type ≠ some "boolean")
    (hhc : findProperty s.dev "heatingCooling" = some hc)
    (hhct : hc.descr.type ≠ some "boolean") :
    ((findProperty
        (propSetValue s "thermostatMode" (Value.vStr "heat")).2.dev
        "heatingCooling").map (fun q => q.value) =
      some (Value.vStr "heating")) ∧
    ((findProperty
        (propSetValue s "thermostatMode" (Value.vStr "cool")).2.dev
        "heatingCooling").map (fun q => q.value) =
      some (Value.vStr "cooling")) ∧
    ((findProperty
        (propSetValue s "thermostatMode" (Value.vStr "off")).2.dev
        "heatingCooling").map (fun q => q.value) =
      some (Value.vStr "off")) ∧
    (∀ v : Value, v ≠ Value.vStr "heat" → v ≠ Value.vStr "cool" →
      v ≠ Value.vStr "off" →
      findProperty (propSetValue s "thermostatMode" v).2.dev
          "heatingCooling" = some hc) ∧
    ((findProperty
        (propSetValue
          (propSetValue s "thermostatMode" (Value.vStr "heat")).2
          "thermostatMode" (Value.vStr "heat")).2.dev
        "heatingCooling").map (fun q => q.value) =
      some (Value.vStr "heating")) := by
  refine ⟨?_, ?_, ?_, ?_, ?_⟩
  · exact (thermostat_write_mode s p hc hp hro hpt hhc hhct "heat" "heating"
      (Or.inl ⟨rfl, rfl⟩)).1
  · exact (thermostat_write_mode s p hc hp hro hpt hhc hhct "cool" "cooling"
      (Or.inr (Or.inl ⟨rfl, rfl⟩))).1
  · exact (thermostat_write_mode s p hc hp hro hpt hhc hhct "off" "off"
      (Or.inr (Or.inr ⟨rfl, rfl⟩))).1
  · intro v h1 h2 h3
    have hw : (setCachedValue p v).value = v :=
      setCachedValue_value_not_boolean p _ hpt
    have har := applyRules_thermostatMode_other
      (storeValue s "thermostatMode" v) ((setCachedValue p v).value)
      (by rw [hw]; exact h1) (by rw [hw]; exact h2) (by rw [hw]; exact h3)
    have heq := propSetValue_eq_of_writable s "thermostatMode" v p hp hro
    rw [har] at heq
    rw [heq]
    dsimp only
    show findProperty (storeValue s "thermostatMode" v).dev
      "heatingCooling" = some hc
    rw [findProperty_storeValue_other s _ _ _ (by decide), hhc]
  · have h1 := thermostat_write_mode s p hc hp hro hpt hhc hhct
      "heat" "heating" (Or.inl ⟨rfl, rfl⟩)
    have hro2 : (setCachedValue p (Value.vStr "heat")).descr.readOnly =
        false := by rw [setCachedValue_descr]; exact hro
    have hpt2 : (setCachedValue p (Value.vStr "heat")).descr.type ≠
        some "boolean" := by rw [setCachedValue_descr]; exact hpt
    have hhct2 : (setCachedValue hc (Value.vStr "heating")).descr.type ≠
        some "boolean" := by rw [setCachedValue_descr]; exact hhct
    exact (thermostat_write_mode
      (propSetValue s "thermostatMode" (Value.vStr "heat")).2
      (setCachedValue p (Value.vStr "heat"))
      (setCachedValue hc (Value.vStr "heating"))
      h1.2.1 hro2 hpt2 h1.2.2.1 hhct2 "heat" "heating"
      (Or.inl ⟨rfl, rfl⟩)).1

theorem c4_thermostat_mode_couples_pair_witness :
    (findProperty
        (propSetValue thermostatSys "thermostatMode"
          (Value.vStr "heat")).2.dev "heatingCooling").map
        (fun q => q.value) = some (Value.vStr "heating") ∧
    findProperty
        (propSetValue thermostatSys "thermostatMode"
          (Value.vStr "auto")).2.dev "heatingCooling" =
      some ⟨"heatingCooling", heatingCoolingDescr, Value.vStr "off"⟩ :=
  ⟨(c4_thermostat_mode_couples_pair thermostatSys
      ⟨"thermostatMode", thermostatModeDescr, Value.vStr "off"⟩
      ⟨"heatingCooling", heatingCoolingDescr, Value.vStr "off"⟩
      rfl rfl (by decide) rfl (by decide)).1,
    (c4_thermostat_mode_couples_pair thermostatSys
      ⟨"thermostatMode", thermostatModeDescr, Value.vStr "off"⟩
      ⟨"heatingCooling", heatingCoolingDescr, Value.vStr "off"⟩
      rfl rfl (by decide) rfl (by decide)).2.2.2.1
      (Value.vStr "auto") (by decide) (by decide) (by decide)⟩

/-! ## Claim C5: derived rules, pairing guards, single firing -/

/-- Claim C5 as stated is false: the `thermostatMode` rule dereferences a
missing `heatingCooling` property, so the write rejects with a TypeError
instead of silently ignoring the absence.  Concretely, on a device whose
only property is a writable string `thermostatMode`, writing `cool` (a
value of the declared type) rejects. -/
theorem c5_counterexample :
    findProperty orphanModeSys.dev "thermostatMode" =
        some ⟨"thermostatMode", ⟨some "string", none, [], none, none, false⟩,
          Value.vStr "auto"⟩ ∧
      findProperty orphanModeSys.dev "heatingCooling" = none ∧
      (propSetValue orphanModeSys "thermostatMode" (Value.vStr "cool")).1 =
        Except.error JsError.typeError := by
  refine ⟨rfl, rfl, ?_⟩
  have heq := propSetValue_eq_of_writable orphanModeSys "thermostatMode"
    (Value.vStr "cool")
    ⟨"thermostatMode", ⟨some "string", none, [], none, none, false⟩,
      Value.vStr "auto"⟩ rfl rfl
  rw [heq]
  rw [show (setCachedValue
      ⟨"thermostatMode", ⟨some "string", none, [], none, none, false⟩,
        Value.vStr "auto"⟩ (Value.vStr "cool")).value =
      Value.vStr "cool" from rfl]
  rw [applyRules_thermostatMode_missing
    (storeValue orphanModeSys "thermostatMode" (Value.vStr "cool"))
    (by decide) "cool" (Or.inr (Or.inl rfl))]

/-- Claim C5, amended: the `color` and `colorTemperature` rules apply only
when `colorMode` exists and its absence is silently ignored (the write
still succeeds and changes nothing else); the `thermostatMode` rule,
however, rejects with a TypeError when `heatingCooling` is absent and the
stored value is `heat`/`cool`/`off`.  A qualifying rule fires exactly once
per write (one paired notification before the written property's own), a
write never touches any property other than the written one and its
designated pair, and writing a derived property (`colorMode`,
`heatingCooling`) triggers no rule. -/
theorem c5_rules_guard_and_fire_once :
    (∀ (s : SysState) (p : VProperty) (v : Value),
      findProperty s.dev "color" = some p → p.descr.readOnly = false →
      findProperty s.dev "colorMode" = none →
      propSetValue s "color" v =
        (Except.ok (setCachedValue p v).value,
          notifyChanged (storeValue s "color" v) "color")) ∧
    (∀ (s : SysState) (p : VProperty) (v : Value),
      findProperty s.dev "colorTemperature" = some p →
      p.descr.readOnly = false → findProperty s.dev "colorMode" = none →
      propSetValue s "colorTemperature" v =
        (Except.ok (setCachedValue p v).value,
          notifyChanged (storeValue s "colorTemperature" v)
            "colorTemperature")) ∧
    (∀ (s : SysState) (p q : VProperty) (v : Value),
      findProperty s.dev "color" = some p → p.descr.readOnly = false →
      findProperty s.dev "colorMode" = some q →
      (propSetValue s "color" v).2.notifs =
        s.notifs ++ ["colorMode", "color"]) ∧
    (∀ (s : SysState) (n : String) (p : VProperty) (v : Value) (m : String),
      findProperty s.dev n = some p → p.descr.readOnly = false →
      m ≠ n → m ≠ "heatingCooling" → m ≠ "colorMode" →
      findProperty (propSetValue s n v).2.dev m = findProperty s.dev m) ∧
    (∀ (s : SysState) (n : String) (p : VProperty) (v : Value),
      findProperty s.dev n = some p → p.descr.readOnly = false →
      (n = "colorMode" ∨ n = "heatingCooling") →
      propSetValue s n v =
        (Except.ok (setCachedValue p v).value,
          notifyChanged (storeValue s n v) n)) := by
  refine ⟨?_, ?_, ?_, ?_, ?_⟩
  · intro s p v hp hro hcm
    have hcm1 : findProperty (storeValue s "color" v).dev "colorMode" =
        none := by
      rw [findProperty_storeValue_other s _ _ _ (by decide), hcm]
    have heq := propSetValue_eq_of_writable s "color" v p hp hro
    rw [applyRules_color_missing _ _ hcm1] at heq
    rw [heq]
    dsimp only
    rw [findProperty_storeValue_self, hp, Option.map_some',
      Option.map_some', Option.getD_some]
  · intro s p v hp hro hcm
    have hcm1 : findProperty
        (storeValue s "colorTemperature" v).dev "colorMode" = none := by
      rw [findProperty_storeValue_other s _ _ _ (by decide), hcm]
    have heq := propSetValue_eq_of_writable s "colorTemperature" v p hp hro
    rw [applyRules_colorTemperature_missing _ _ hcm1] at heq
    rw [heq]
    dsimp only
    rw [findProperty_storeValue_self, hp, Option.map_some',
      Option.map_some', Option.getD_some]
  · intro s p q v hp hro hcm
    have hcm1 : findProperty (storeValue s "color" v).dev "colorMode" =
        some q := by
      rw [findProperty_storeValue_other s _ _ _ (by decide), hcm]
    have heq := propSetValue_eq_of_writable s "color" v p hp hro
    rw [applyRules_color_present _ q _ hcm1] at heq
    rw [heq]
    dsimp only
    rw [notifyChanged_notifs]
    show ((storeValue (storeValue s "color" v) "colorMode"
        (Value.vStr "color")).notifs ++ ["colorMode"]) ++ ["color"] = _
    rw [storeValue_notifs, storeValue_notifs, List.append_assoc]
    rfl
  · intro s n p v m hp hro hmn hm1 hm2
    have heq := propSetValue_eq_of_writable s n v p hp hro
    cases har : applyRules (storeValue s n v) n (setCachedValue p v).value
      with
    | error e =>
      rw [har] at heq
      rw [heq]
      dsimp only
      rw [findProperty_storeValue_other s _ _ _ hmn]
    | ok s2 =>
      rw [har] at heq
      rw [heq]
      dsimp only
      rw [notifyChanged_dev,
        applyRules_ok_frame _ n _ s2 har m hm1 hm2,
        findProperty_storeValue_other s _ _ _ hmn]
  · intro s n p v hp hro hn
    have heq := propSetValue_eq_of_writable s n v p hp hro
    have har : applyRules (storeValue s n v) n (setCachedValue p v).value =
        Except.ok (storeValue s n v) := by
      rcases hn with hn | hn <;> subst hn <;>
        exact applyRules_other_name _ _ _ (by decide) (by decide) (by decide)
          (by decide)
    rw [har] at heq
    rw [heq]
    dsimp only
    rw [findProperty_storeValue_self, hp, Option.map_some',
      Option.map_some', Option.getD_some]

theorem c5_rules_guard_and_fire_once_witness :
    propSetValue
        ⟨⟨[⟨"color", ⟨some "string", some "ColorProperty", [], none, none,
            false⟩, Value.vStr "#ff0000"⟩]⟩, sampleAdapter, []⟩
        "color" (Value.vStr "#00ff00") =
      (Except.ok (Value.vStr "#00ff00"),
        notifyChanged
          (storeValue
            ⟨⟨[⟨"color", ⟨some "string", some "ColorProperty", [], none,
                none, false⟩, Value.vStr "#ff0000"⟩]⟩, sampleAdapter, []⟩
            "color" (Value.vStr "#00ff00")) "color") :=
  c5_rules_guard_and_fire_once.1
    ⟨⟨[⟨"color", ⟨some "string", some "ColorProperty", [], none, none,
        false⟩, Value.vStr "#ff0000"⟩]⟩, sampleAdapter, []⟩
    ⟨"color", ⟨some "string", some "ColorProperty", [], none, none, false⟩,
      Value.vStr "#ff0000"⟩
    (Value.vStr "#00ff00") rfl rfl rfl

/-! ## Claim C1: write/read round-trip and promise resolution -/

theorem applyRules_ok_unless (s : SysState) (n : String) (w : Value)
    (h : ¬(n = "thermostatMode" ∧
      (w = Value.vStr "heat" ∨ w = Value.vStr "cool" ∨
        w = Value.vStr "off") ∧
      findProperty s.dev "heatingCooling" = none)) :
    ∃ s2, applyRules s n w = Except.ok s2 := by
  by_cases h1 : n = "streamActive"
  · subst h1
    exact ⟨_, applyRules_streamActive s w⟩
  · by_cases h2 : n = "thermostatMode"
    · subst h2
      by_cases hw : w = Value.vStr "heat" ∨ w = Value.vStr "cool" ∨
          w = Value.vStr "off"
      · cases hhc : findProperty s.dev "heatingCooling" with
        | none => exact absurd ⟨rfl, hw, hhc⟩ h
        | some q =>
          rcases hw with hw | hw | hw <;> subst hw
          · exact ⟨_, applyRules_thermostatMode_pair s q hhc "heat"
              "heating" (Or.inl ⟨rfl, rfl⟩)⟩
          · exact ⟨_, applyRules_thermostatMode_pair s q hhc "cool"
              "cooling" (Or.inr (Or.inl ⟨rfl, rfl⟩))⟩
          · exact ⟨_, applyRules_thermostatMode_pair s q hhc "off" "off"
              (Or.inr (Or.inr ⟨rfl, rfl⟩))⟩
      · push_neg at hw
        exact ⟨s, applyRules_thermostatMode_other s w hw.1 hw.2.1 hw.2.2⟩
    · by_cases h3 : n = "color"
      · subst h3
        cases hcm : findProperty s.dev "colorMode" with
        | none => exact ⟨s, applyRules_color_missing s w hcm⟩
        | some q => exact ⟨_, applyRules_color_present s q w hcm⟩
      · by_cases h4 : n = "colorTemperature"
        · subst h4
          cases hcm : findProperty s.dev "colorMode" with
          | none => exact ⟨s, applyRules_colorTemperature_missing s w hcm⟩
          | some q => exact ⟨_, applyRules_colorTemperature_present s q w hcm⟩
        · exact ⟨s, applyRules_other_name s n w h1 h2 h3 h4⟩

/-- Claim C1 as stated is false: on a device whose only property is a
writable string `thermostatMode` (and no `heatingCooling` pair,
constructible through the custom-things config), writing the well-typed
value `heat` stores it but the returned promise rejects with a TypeError
instead of resolving to the stored value. -/
theorem c1_counterexample :
    findProperty orphanModeSys.dev "thermostatMode" =
        some ⟨"thermostatMode", ⟨some "string", none, [], none, none, false⟩,
          Value.vStr "auto"⟩ ∧
      hasType (Value.vStr "heat") (some "string") = true ∧
      (findProperty
          (propSetValue orphanModeSys "thermostatMode"
            (Value.vStr "heat")).2.dev "thermostatMode").map
          (fun q => q.value) = some (Value.vStr "heat") ∧
      (propSetValue orphanModeSys "thermostatMode" (Value.vStr "heat")).1 =
        Except.error JsError.typeError := by
  have heq := propSetValue_eq_of_writable orphanModeSys "thermostatMode"
    (Value.vStr "heat")
    ⟨"thermostatMode", ⟨some "string", none, [], none, none, false⟩,
      Value.vStr "auto"⟩ rfl rfl
  rw [show (setCachedValue
      ⟨"thermostatMode", ⟨some "string", none, [], none, none, false⟩,
        Value.vStr "auto"⟩ (Value.vStr "heat")).value =
      Value.vStr "heat" from rfl,
    applyRules_thermostatMode_missing
      (storeValue orphanModeSys "thermostatMode" (Value.vStr "heat"))
      (by decide) "heat" (Or.inl rfl)] at heq
  rw [heq]
  exact ⟨rfl, rfl, by decide, rfl⟩

/-- Claim C1, amended: for every non-read-only property, `setValue(v)` with
`v` of the declared type stores `v` and a subsequent read returns exactly
`v`; the returned promise resolves to the stored value except in the
counterexample corner (property named `thermostatMode`, value
`heat`/`cool`/`off`, no `heatingCooling` on the device), where the value is
stored but the promise rejects. -/
theorem c1_setValue_roundtrip (s : SysState) (n : String) (v : Value)
    (p : VProperty) (hp : findProperty s.dev n = some p)
    (hro : p.descr.readOnly = false)
    (hty : hasType v p.descr.type = true) :
    ((findProperty (propSetValue s n v).2.dev n).map (fun q => q.value) =
      some v) ∧
    (¬(n = "thermostatMode" ∧
        (v = Value.vStr "heat" ∨ v = Value.vStr "cool" ∨
          v = Value.vStr "off") ∧
        findProperty s.dev "heatingCooling" = none) →
      (propSetValue s n v).1 = Except.ok v) := by
  have hw : (setCachedValue p v).value = v :=
    setCachedValue_value_of_hasType p v hty
  have heq := propSetValue_eq_of_writable s n v p hp hro
  constructor
  · cases har : applyRules (storeValue s n v) n (setCachedValue p v).value
      with
    | error e =>
      rw [har] at heq
      rw [heq]
      dsimp only
      rw [findProperty_storeValue_self, hp, Option.map_some',
        Option.map_some', hw]
    | ok s2 =>
      rw [har] at heq
      rw [heq]
      dsimp only
      rw [notifyChanged_dev, applyRules_ok_find_self _ n _ s2 har,
        findProperty_storeValue_self, hp, Option.map_some',
        Option.map_some', hw]
  · intro hcorner
    have hcorner1 : ¬(n = "thermostatMode" ∧
        ((setCachedValue p v).value = Value.vStr "heat" ∨
          (setCachedValue p v).value = Value.vStr "cool" ∨
          (setCachedValue p v).value = Value.vStr "off") ∧
        findProperty (storeValue s n v).dev "heatingCooling" = none) := by
      rintro ⟨ha, hb, hc⟩
      apply hcorner
      subst ha
      rw [hw] at hb
      rw [findProperty_storeValue_other s _ _ _ (by decide)] at hc
      exact ⟨rfl, hb, hc⟩
    obtain ⟨s2, har⟩ :=
      applyRules_ok_unless (storeValue s n v) n _ hcorner1
    rw [har] at heq
    rw [heq]
    dsimp only
    rw [applyRules_ok_find_self _ n _ s2 har, findProperty_storeValue_self,
      hp, Option.map_some', Option.map_some', Option.getD_some, hw]

theorem c1_setValue_roundtrip_witness :
    ((findProperty
        (propSetValue thermostatSys "thermostatMode"
          (Value.vStr "cool")).2.dev "thermostatMode").map
        (fun q => q.value) = some (Value.vStr "cool")) ∧
      (propSetValue thermostatSys "thermostatMode" (Value.vStr "cool")).1 =
        Except.ok (Value.vStr "cool") :=
  ⟨(c1_setValue_roundtrip thermostatSys "thermostatMode"
      (Value.vStr "cool")
      ⟨"thermostatMode", thermostatModeDescr, Value.vStr "off"⟩
      rfl rfl rfl).1,
    (c1_setValue_roundtrip thermostatSys "thermostatMode"
      (Value.vStr "cool")
      ⟨"thermostatMode", thermostatModeDescr, Value.vStr "off"⟩
      rfl rfl rfl).2 (by decide)⟩

/-! ## Claim C6: drift draws respect the descriptor's constraints -/

theorem randomNumber_int_bounds (mn mx u : ℚ) (h0 : 0 ≤ u) (h1 : u < 1)
    (hcf : ⌈mn⌉ ≤ ⌊mx⌋) :
    ∃ k : ℤ, randomNumber true (some mn) (some mx) u = (k : ℚ) ∧
      ⌈mn⌉ ≤ k ∧ k ≤ ⌊mx⌋ := by
  have hCF : ((⌈mn⌉ : ℚ)) ≤ ((⌊mx⌋ : ℚ)) := by exact_mod_cast hcf
  have hN : (0 : ℚ) < ((⌊mx⌋ : ℚ) - (⌈mn⌉ : ℚ) + 1) := by linarith
  have hprod0 : 0 ≤ u * ((⌊mx⌋ : ℚ) - (⌈mn⌉ : ℚ) + 1) :=
    mul_nonneg h0 (le_of_lt hN)
  have hprodlt : u * ((⌊mx⌋ : ℚ) - (⌈mn⌉ : ℚ) + 1) <
      ((⌊mx⌋ : ℚ) - (⌈mn⌉ : ℚ) + 1) := by nlinarith
  have hfl0 : 0 ≤ ⌊u * ((⌊mx⌋ : ℚ) - (⌈mn⌉ : ℚ) + 1)⌋ :=
    Int.floor_nonneg.mpr hprod0
  have hflt : ⌊u * ((⌊mx⌋ : ℚ) - (⌈mn⌉ : ℚ) + 1)⌋ < ⌊mx⌋ - ⌈mn⌉ + 1 := by
    rw [Int.floor_lt]
    push_cast
    exact hprodlt
  refine ⟨⌊u * ((⌊mx⌋ : ℚ) - (⌈mn⌉ : ℚ) + 1)⌋ + ⌈mn⌉, ?_, ?_, ?_⟩
  · show ((⌊u * ((⌊mx⌋ : ℚ) - (⌈mn⌉ : ℚ) + 1)⌋ : ℤ) : ℚ) + (⌈mn⌉ : ℚ) = _
    push_cast
    ring
  · omega
  · omega

theorem randomNumber_num_bounds (mn mx u : ℚ) (h0 : 0 ≤ u) (h1 : u < 1)
    (hle : mn ≤ mx) :
    mn ≤ randomNumber false (some mn) (some mx) u ∧
      randomNumber false (some mn) (some mx) u ≤ mx := by
  show mn ≤ u * (mx - mn) + mn ∧ u * (mx - mn) + mn ≤ mx
  constructor <;> nlinarith

/-- Claim C6: a drift firing draws a member of the declared `enum` when one
exists; otherwise a boolean for boolean type, and for number/integer type
with both bounds present a value within `[minimum, maximum]` (integers
within `[ceil(minimum), floor(maximum)]`); and the drawn value is stored
(with a change notification) exactly when it differs from the current
value. -/
theorem c6_drift_respects_constraints (descr : Descriptor)
    (u u1 u2 u3 : ℚ) (tok : String) (h0 : 0 ≤ u) (h1 : u < 1) :
    (descr.enum ≠ [] → ∀ v, driftValue descr u u1 u2 u3 tok = some v →
      v ∈ descr.enum) ∧
    (descr.enum = [] → descr.type = some "boolean" →
      ∃ b, driftValue descr u u1 u2 u3 tok = some (Value.vBool b)) ∧
    (∀ mn mx : ℚ, descr.enum = [] → descr.type = some "number" →
      descr.minimum = some mn → descr.maximum = some mx → mn ≤ mx →
      ∃ q : ℚ, driftValue descr u u1 u2 u3 tok = some (Value.vNum q) ∧
        mn ≤ q ∧ q ≤ mx) ∧
    (∀ mn mx : ℚ, descr.enum = [] → descr.type = some "integer" →
      descr.minimum = some mn → descr.maximum = some mx →
      ⌈mn⌉ ≤ ⌊mx⌋ →
      ∃ k : ℤ, driftValue descr u u1 u2 u3 tok =
          some (Value.vNum (k : ℚ)) ∧
        mn ≤ (k : ℚ) ∧ (k : ℚ) ≤ mx ∧ ⌈mn⌉ ≤ k ∧ k ≤ ⌊mx⌋) ∧
    (∀ (s : SysState) (n : String) (p : VProperty),
      findProperty s.dev n = some p →
      driftValue p.descr u u1 u2 u3 tok = some p.value →
      driftFire s n u u1 u2 u3 tok = s) ∧
    (∀ (s : SysState) (n : String) (p : VProperty) (v : Value),
      findProperty s.dev n = some p →
      driftValue p.descr u u1 u2 u3 tok = some v → v ≠ p.value →
      driftFire s n u u1 u2 u3 tok = notifyChanged (storeValue s n v) n) := by
  refine ⟨?_, ?_, ?_, ?_, ?_, ?_⟩
  · intro hne v hv
    unfold driftValue at hv
    rw [if_pos hne] at hv
    injection hv with hv
    subst hv
    have hlen : 1 ≤ descr.enum.length := by
      cases hl : descr.enum with
      | nil => exact absurd hl hne
      | cons a l => simp [hl]
    have hfloor : ⌊((descr.enum.length : ℚ) - 1)⌋ =
        (descr.enum.length : ℤ) - 1 := by
      rw [show ((descr.enum.length : ℚ) - 1) =
        (((descr.enum.length : ℤ) - 1 : ℤ) : ℚ) by push_cast; ring]
      exact Int.floor_intCast _
    obtain ⟨k, hk, hk0, hkle⟩ := randomNumber_int_bounds 0
      ((descr.enum.length : ℚ) - 1) u h0 h1
      (by rw [Int.ceil_zero, hfloor]; omega)
    rw [hk]
    rw [Int.ceil_zero] at hk0
    rw [hfloor] at hkle
    unfold jsIndex
    rw [if_pos ⟨by exact_mod_cast hk0, Rat.den_intCast k⟩]
    have hknum : ((k : ℚ)).num = k := Rat.num_intCast k
    rw [hknum]
    have hidx : k.toNat < descr.enum.length := by omega
    rw [List.getD_eq_getElem?_getD]
    rw [List.getElem?_eq_getElem hidx]
    exact List.getElem_mem _
  · intro hne htype
    unfold driftValue
    rw [if_neg (fun hh => hh hne), htype]
    exact ⟨_, rfl⟩
  · intro mn mx hne htype hmin hmax hle
    unfold driftValue
    rw [if_neg (fun hh => hh hne), htype, hmin, hmax]
    obtain ⟨hlo, hhi⟩ := randomNumber_num_bounds mn mx u h0 h1 hle
    exact ⟨_, rfl, hlo, hhi⟩
  · intro mn mx hne htype hmin hmax hcf
    unfold driftValue
    rw [if_neg (fun hh => hh hne), htype, hmin, hmax]
    obtain ⟨k, hk, hklo, hkhi⟩ := randomNumber_int_bounds mn mx u h0 h1 hcf
    refine ⟨k, by rw [hk]; rfl, ?_, ?_, hklo, hkhi⟩
    · calc mn ≤ (⌈mn⌉ : ℚ) := Int.le_ceil mn
        _ ≤ (k : ℚ) := by exact_mod_cast hklo
    · calc (k : ℚ) ≤ (⌊mx⌋ : ℚ) := by exact_mod_cast hkhi
        _ ≤ mx := Int.floor_le mx
  · intro s n p hf hv
    unfold driftFire
    rw [hf]
    dsimp only
    rw [hv]
    dsimp only
    rw [if_neg (fun hh => hh rfl)]
  · intro s n p v hf hv hne
    unfold driftFire
    rw [hf]
    dsimp only
    rw [hv]
    dsimp only
    rw [if_pos hne]
    rfl

theorem c6_drift_respects_constraints_witness :
    ∃ k : ℤ,
      driftValue ⟨some "integer", none, [], some 0, some 100, false⟩
          (1 / 2) 0 0 0 "t" = some (Value.vNum (k : ℚ)) ∧
        (0 : ℚ) ≤ (k : ℚ) ∧ (k : ℚ) ≤ 100 ∧
        ⌈(0 : ℚ)⌉ ≤ k ∧ k ≤ ⌊(100 : ℚ)⌋ :=
  (c6_drift_respects_constraints
      ⟨some "integer", none, [], some 0, some 100, false⟩
      (1 / 2) 0 0 0 "t" (by norm_num) (by norm_num)).2.2.2.1 0 100 rfl rfl
    rfl rfl (by norm_num)

/-! ## Claim C3: the lock/unlock action state machine -/

/-- Claim C3: invoking `lock`/`unlock` when `locked` already equals the
target finishes immediately with no state change; otherwise `locked` is set
to `unknown` immediately (and notified) and a 2000 ms resolution is
scheduled, which draws an integer uniform in `[0, 19]`: on the sentinel `2`
the state becomes `jammed`, otherwise the requested target, and only then
is the action finished. -/
theorem c3_lock_state_machine (s : SysState) (act target : String)
    (p : VProperty)
    (hat : (act = "lock" ∧ target = "locked") ∨
      (act = "unlock" ∧ target = "unlocked"))
    (hp : findProperty s.dev "locked" = some p)
    (hpt : p.descr.type ≠ some "boolean") (u0 u : ℚ)
    (h0 : 0 ≤ u) (h1 : u < 1) :
    (p.value = Value.vStr target →
      performAction s act u0 = Except.ok ⟨s, [], true, none⟩) ∧
    (p.value ≠ Value.vStr target →
      performAction s act u0 =
        Except.ok
          ⟨setCachedValueAndNotify s "locked" (Value.vStr "unknown"), [],
            false, some (2000, target)⟩ ∧
      (findProperty
          (setCachedValueAndNotify s "locked" (Value.vStr "unknown")).dev
          "locked").map (fun q => q.value) = some (Value.vStr "unknown") ∧
      (setCachedValueAndNotify s "locked" (Value.vStr "unknown")).notifs =
        s.notifs ++ ["locked"]) ∧
    (∃ k : ℤ, randomNumber true (some 0) (some 19) u = (k : ℚ) ∧
      0 ≤ k ∧ k ≤ 19) ∧
    (∀ (s1 : SysState) (q : VProperty),
      findProperty s1.dev "locked" = some q →
      q.descr.type ≠ some "boolean" →
      (randomNumber true (some 0) (some 19) u = 2 →
        (findProperty (lockResolve s1 target u).1.dev "locked").map
            (fun r => r.value) = some (Value.vStr "jammed") ∧
        (lockResolve s1 target u).2 = true) ∧
      (randomNumber true (some 0) (some 19) u ≠ 2 →
        (findProperty (lockResolve s1 target u).1.dev "locked").map
            (fun r => r.value) = some (Value.vStr target) ∧
        (lockResolve s1 target u).2 = true)) := by
  have hbounds : ∃ k : ℤ, randomNumber true (some 0) (some 19) u = (k : ℚ) ∧
      0 ≤ k ∧ k ≤ 19 := by
    obtain ⟨k, hk, hklo, hkhi⟩ := randomNumber_int_bounds 0 19 u h0 h1
      (by norm_num)
    refine ⟨k, hk, ?_, ?_⟩
    · rwa [Int.ceil_zero] at hklo
    · rw [show ⌊(19 : ℚ)⌋ = 19 by norm_num] at hkhi
      exact hkhi
  refine ⟨?_, ?_, hbounds, ?_⟩
  · intro hval
    rcases hat with ⟨ha, ht⟩ | ⟨ha, ht⟩ <;> subst ha <;> subst ht
    · have hstep : performAction s "lock" u0 =
          (match findProperty s.dev "locked" with
           | none => Except.error JsError.typeError
           | some q =>
             if q.value = Value.vStr "locked" then
               Except.ok ⟨s, [], true, none⟩
             else
               Except.ok
                 ⟨setCachedValueAndNotify s "locked" (Value.vStr "unknown"),
                   [], false, some (2000, "locked")⟩) := rfl
      rw [hstep, hp]
      dsimp only
      rw [if_pos hval]
    · have hstep : performAction s "unlock" u0 =
          (match findProperty s.dev "locked" with
           | none => Except.error JsError.typeError
           | some q =>
             if q.value = Value.vStr "unlocked" then
               Except.ok ⟨s, [], true, none⟩
             else
               Except.ok
                 ⟨setCachedValueAndNotify s "locked" (Value.vStr "unknown"),
                   [], false, some (2000, "unlocked")⟩) := rfl
      rw [hstep, hp]
      dsimp only
      rw [if_pos hval]
  · intro hval
    refine ⟨?_, ?_, rfl⟩
    · rcases hat with ⟨ha, ht⟩ | ⟨ha, ht⟩ <;> subst ha <;> subst ht
      · have hstep : performAction s "lock" u0 =
            (match findProperty s.dev "locked" with
             | none => Except.error JsError.typeError
             | some q =>
               if q.value = Value.vStr "locked" then
                 Except.ok ⟨s, [], true, none⟩
               else
                 Except.ok
                   ⟨setCachedValueAndNotify s "locked"
                       (Value.vStr "unknown"), [], false,
                     some (2000, "locked")⟩) := rfl
        rw [hstep, hp]
        dsimp only
        rw [if_neg hval]
      · have hstep : performAction s "unlock" u0 =
            (match findProperty s.dev "locked" with
             | none => Except.error JsError.typeError
             | some q =>
               if q.value = Value.vStr "unlocked" then
                 Except.ok ⟨s, [], true, none⟩
               else
                 Except.ok
                   ⟨setCachedValueAndNotify s "locked"
                       (Value.vStr "unknown"), [], false,
                     some (2000, "unlocked")⟩) := rfl
        rw [hstep, hp]
        dsimp only
        rw [if_neg hval]
    · show (findProperty (storeValue s "locked" (Value.vStr "unknown")).dev
        "locked").map (fun q => q.value) = _
      rw [findProperty_storeValue_self, hp, Option.map_some',
        Option.map_some', setCachedValue_value_not_boolean p _ hpt]
  · intro s1 q hq hqt
    constructor
    · intro hdraw
      constructor
      · show (findProperty
          (notifyChanged
            (setCachedValueAndNotify s1 "locked"
              (if randomNumber true (some 0) (some 19) u = 2 then
                Value.vStr "jammed" else Value.vStr target)) "locked").dev
          "locked").map (fun r => r.value) = _
        rw [if_pos hdraw, notifyChanged_dev]
        show (findProperty
          (storeValue s1 "locked" (Value.vStr "jammed")).dev "locked").map
          (fun r => r.value) = _
        rw [findProperty_storeValue_self, hq, Option.map_some',
          Option.map_some', setCachedValue_value_not_boolean q _ hqt]
      · rfl
    · intro hdraw
      constructor
      · show (findProperty
          (notifyChanged
            (setCachedValueAndNotify s1 "locked"
              (if randomNumber true (some 0) (some 19) u = 2 then
                Value.vStr "jammed" else Value.vStr target)) "locked").dev
          "locked").map (fun r => r.value) = _
        rw [if_neg hdraw, notifyChanged_dev]
        show (findProperty
          (storeValue s1 "locked" (Value.vStr target)).dev "locked").map
          (fun r => r.value) = _
        rw [findProperty_storeValue_self, hq, Option.map_some',
          Option.map_some', setCachedValue_value_not_boolean q _ hqt]
      · rfl

theorem c3_lock_state_machine_witness :
    (performAction lockSys "lock" 0 =
        Except.ok
          ⟨setCachedValueAndNotify lockSys "locked" (Value.vStr "unknown"),
            [], false, some (2000, "locked")⟩ ∧
      (findProperty
          (setCachedValueAndNotify lockSys "locked"
            (Value.vStr "unknown")).dev "locked").map (fun q => q.value) =
        some (Value.vStr "unknown") ∧
      (setCachedValueAndNotify lockSys "locked"
          (Value.vStr "unknown")).notifs = lockSys.notifs ++ ["locked"]) ∧
    (∃ k : ℤ, randomNumber true (some 0) (some 19) (1 / 2) = (k : ℚ) ∧
      0 ≤ k ∧ k ≤ 19) :=
  ⟨(c3_lock_state_machine lockSys "lock" "locked"
      ⟨"locked", lockedDescr, Value.vStr "unlocked"⟩ (Or.inl ⟨rfl, rfl⟩)
      rfl (by decide) 0 (1 / 2) (by norm_num) (by norm_num)).2.1
      (by decide),
    (c3_lock_state_machine lockSys "lock" "locked"
      ⟨"locked", lockedDescr, Value.vStr "unlocked"⟩ (Or.inl ⟨rfl, rfl⟩)
      rfl (by decide) 0 (1 / 2) (by norm_num) (by norm_num)).2.2.1⟩

end VirtualThings
